import Mathlib

/-!
Shallow embedding of the Evidence Retrieval and Citation-Grounded Answering
engine (vector_store.py, retrieval.py, qa_chain.py), with theorems checking
the specification's claims against it.

Modelling conventions:
* A `Document` is langchain's `Document`: `page_content` plus a string-keyed
  metadata mapping, embedded as an association list (Python dicts preserve
  insertion order, and `metadata.keys()` is its key list in that order).
* The FAISS docstore `_dict` is embedded as the insertion-ordered list of its
  values (`docs`); `len(self.vector_db.docstore._dict)` is `docs.length`.
* The embedding service is an opaque collaborator; similarity search is
  embedded as a query-determined integer score per document, with FAISS
  returning the `k` highest-scoring documents (stable in insertion order).
* Fallible external calls (index load, the compression retrieval path, the
  LLM generation call, the citation retrieval call) are embedded as
  `Except String _` values supplied by the environment; the `except` blocks
  of the Python code become `match` on those values.
-/

/-- Langchain `Document`: text plus metadata (insertion-ordered dict). -/
structure Document where
  page_content : String
  metadata : List (String × String)
deriving DecidableEq, Repr

/-- Python `dict.get(key, default)` on the metadata mapping, without the
default: `metadata.get(key)` as an `Option`. -/
def metaGet (metadata : List (String × String)) (key : String) : Option String :=
  (metadata.find? (fun p => p.1 == key)).map (fun p => p.2)

/-- `os.path.basename`: the part of the path after the last `/`. -/
def basename (path : String) : String :=
  (path.splitOn "/").getLastD path

/-- `config.MAX_DOCUMENTS` — maximum documents retrieved per query. -/
def MAX_DOCUMENTS : Nat := 5

/-- The synthetic bootstrap document of `VectorStore.__init__`:
`Document(page_content="Placeholder", metadata={})`. -/
def placeholderDocument : Document := ⟨"Placeholder", []⟩

/-- The FAISS-backed vector store: the docstore entries in insertion order. -/
structure VectorStore where
  docs : List Document
deriving DecidableEq, Repr

/-- `VectorStore.__init__`: if a persisted index exists and loads, use it;
if loading fails, or no persisted index exists, seed the store with the
single placeholder document.  `persisted = none` is the fresh-install case
(no index files on disk); `some (Except.error e)` is the load-failure case;
`some (Except.ok docs)` is a successful load. -/
def VectorStore.init (persisted : Option (Except String (List Document))) : VectorStore :=
  match persisted with
  | some (Except.ok loaded) => ⟨loaded⟩
  | some (Except.error _) => ⟨[placeholderDocument]⟩
  | none => ⟨[placeholderDocument]⟩

/-- `VectorStore.add_documents`: append the batch when it is non-empty
(the Python code only calls `add_documents`/`save_local` under
`if len(documents) > 0`). -/
def VectorStore.add_documents (vs : VectorStore) (documents : List Document) : VectorStore :=
  if documents.length > 0 then ⟨vs.docs ++ documents⟩ else vs

/-- Result shape of `VectorStore.get_collection_stats`. -/
structure CollectionStats where
  count : Nat
  metadata_keys : List String
deriving DecidableEq, Repr

/-- `VectorStore.get_collection_stats`: `count` is the docstore size;
`metadata_keys` is the key list of the *first* docstore entry
(`next(iter(self.vector_db.docstore._dict))`), or `[]` when empty. -/
def VectorStore.get_collection_stats (vs : VectorStore) : CollectionStats :=
  match vs.docs with
  | [] => ⟨0, []⟩
  | sample_doc :: rest => ⟨(sample_doc :: rest).length, sample_doc.metadata.map (fun p => p.1)⟩

/-- Insert a document into a list sorted by descending score, keeping
insertion order on ties (the new document comes from earlier in the
original list, so on a tie it stays in front). -/
def insertByScore (score : Document → Int) (d : Document) : List Document → List Document
  | [] => [d]
  | e :: rest =>
    if score e ≤ score d then d :: e :: rest else e :: insertByScore score d rest

/-- Rank a document list by descending score (stable). -/
def rankByScore (score : Document → Int) : List Document → List Document
  | [] => []
  | d :: rest => insertByScore score (d) (rankByScore score rest)

/-- `VectorStore.similarity_search(query, k)`: the `k` documents nearest to
the query, i.e. the `k` highest-scoring docstore entries.  The query enters
through `score`, the similarity of each stored document to the query. -/
def VectorStore.similarity_search (vs : VectorStore) (score : Document → Int) (k : Nat) :
    List Document :=
  (rankByScore score vs.docs).take k

/-- FAISS similarity search with a metadata `filter`: the top `k` among the
documents satisfying the predicate. -/
def VectorStore.similarity_search_filtered (vs : VectorStore) (score : Document → Int)
    (pred : Document → Bool) (k : Nat) : List Document :=
  ((rankByScore score vs.docs).filter pred).take k

/-- `DocumentRetriever`: holds the vector store; its base retriever was
constructed with `search_kwargs={"k": config.MAX_DOCUMENTS}`. -/
structure DocumentRetriever where
  vector_store : VectorStore
deriving DecidableEq, Repr

/-- `self.base_retriever.get_relevant_documents(query)`: unfiltered top
`MAX_DOCUMENTS` search. -/
def DocumentRetriever.base_retrieve (r : DocumentRetriever) (score : Document → Int) :
    List Document :=
  r.vector_store.similarity_search score MAX_DOCUMENTS

/-- `DocumentRetriever.retrieve_documents(query, k)`.  The compression
retriever refines the base results with an `EmbeddingsFilter`
(similarity ≥ threshold); `compression` is the outcome of that external
call (`Except.error` = the compression path raised).  On an exception the
code falls back to the base retriever.  Note the local `k` (defaulted to
`MAX_DOCUMENTS` when `none`) is never used afterwards, exactly as in the
source. -/
def DocumentRetriever.retrieve_documents (r : DocumentRetriever) (score : Document → Int)
    (threshold : Int) (compression : Except String Unit) (k : Option Nat) : List Document :=
  let _k : Nat := k.getD MAX_DOCUMENTS
  match compression with
  | Except.ok _ => (r.base_retrieve score).filter (fun d => decide (threshold ≤ score d))
  | Except.error _ => r.base_retrieve score

/-- `DocumentRetriever.retrieve_with_metadata_filter(query, filter_dict, k)`:
over-fetch `k * 2` with the metadata predicate, truncate to `k`; on an
exception (`filterPath = Except.error`) fall back to
`retrieve_documents(query, k)`. -/
def DocumentRetriever.retrieve_with_metadata_filter (r : DocumentRetriever)
    (score : Document → Int) (threshold : Int) (compression : Except String Unit)
    (pred : Document → Bool) (filterPath : Except String Unit) (k : Option Nat) :
    List Document :=
  let kk : Nat := k.getD MAX_DOCUMENTS
  match filterPath with
  | Except.ok _ => (r.vector_store.similarity_search_filtered score pred (kk * 2)).take kk
  | Except.error _ => r.retrieve_documents score threshold compression (some kk)

/-- `DocumentRetriever.retrieve_by_recency`: when a year bound is given,
delegate to the metadata-filter path with the year predicate; otherwise use
standard retrieval.  Year values are compared as strings, as in the
`{"$gte": str(min_year)}` filter dict. -/
def yearInRange (min_year max_year : Option String) (d : Document) : Bool :=
  match metaGet d.metadata "year" with
  | none => false
  | some y =>
    (match min_year with | none => true | some lo => lo ≤ y) &&
    (match max_year with | none => true | some hi => y ≤ hi)

/-- `retrieve_by_recency(query, min_year, max_year, k)`. -/
def DocumentRetriever.retrieve_by_recency (r : DocumentRetriever)
    (score : Document → Int) (threshold : Int) (compression : Except String Unit)
    (filterPath : Except String Unit) (min_year max_year : Option String)
    (k : Option Nat) : List Document :=
  match min_year, max_year with
  | none, none => r.retrieve_documents score threshold compression k
  | _, _ =>
    r.retrieve_with_metadata_filter score threshold compression
      (yearInRange min_year max_year) filterPath k

/-- A citation entry of `answer_question`'s `sources` list. -/
structure Citation where
  title : String
  source : String
  snippet : String
deriving DecidableEq, Repr

/-- Result of `QAChain.answer_question`. -/
structure QAResult where
  answer : String
  sources : List Citation
deriving DecidableEq, Repr

/-- `doc.metadata.get("source", "Unknown")`. -/
def sourceOf (d : Document) : String :=
  (metaGet d.metadata "source").getD "Unknown"

/-- `doc.metadata.get("title", os.path.basename(source))`. -/
def titleOf (d : Document) : String :=
  (metaGet d.metadata "title").getD (basename (sourceOf d))

/-- The dedup key: `source_id = f"{source}_{title}"`. -/
def docKey (d : Document) : String :=
  sourceOf d ++ "_" ++ titleOf d

/-- The citation built for a document:
`{"title": title, "source": source, "snippet": doc.page_content[:200] + "..."}`. -/
def citationOf (d : Document) : Citation :=
  ⟨titleOf d, sourceOf d, d.page_content.take 200 ++ "..."⟩

/-- The source-extraction loop of `answer_question`: walk the retrieved
documents, appending a citation for each document whose `source_id` is not
yet in `seen_sources`. -/
def extractSources : List Document → List String → List Citation
  | [], _ => []
  | doc :: rest, seen_sources =>
    if seen_sources.contains (docKey doc) then
      extractSources rest seen_sources
    else
      citationOf doc :: extractSources rest (docKey doc :: seen_sources)

/-- `QAChain.answer_question(question)`.  `chain` is `self.chain`
(`none` when no API key was configured, so no chain was built);
`generation` is the outcome of `self.chain.invoke(question)`; `retrieval`
is the outcome of `self.vector_store.similarity_search(question, k=
config.MAX_DOCUMENTS)`.  The `try`/`except` around generation, retrieval
and source extraction becomes the two error arms. -/
def answer_question (chain : Option Unit) (generation : Except String String)
    (retrieval : Except String (List Document)) : QAResult :=
  match chain with
  | none =>
    ⟨"QA system not fully initialized. Please check your API key configuration.", []⟩
  | some _ =>
    match generation with
    | Except.error e => ⟨"An error occurred: " ++ e, []⟩
    | Except.ok answer =>
      match retrieval with
      | Except.error e => ⟨"An error occurred: " ++ e, []⟩
      | Except.ok source_docs => ⟨answer, extractSources source_docs []⟩

/-- Specification-side companion of the source-extraction loop, written the
way the (amended) claim reads: keep, in first-seen order, the first
document of each distinct dedup key, discarding every later document with
an already-seen key. -/
def firstOccurrences : List Document → List Document
  | [] => []
  | d :: rest =>
    d :: firstOccurrences (rest.filter (fun d2 => !(decide (docKey d2 = docKey d))))
termination_by l => l.length
decreasing_by
  simp only [List.length_cons]
  exact Nat.lt_succ_of_le (List.length_filter_le _ _)

/-- Specification-side companion of `get_collection_stats`: the metadata
field names observed on at least one persisted entry, across the whole
docstore. -/
def observedMetadataKeys (vs : VectorStore) : List String :=
  vs.docs.foldr (fun d acc => d.metadata.map (fun p => p.1) ++ acc) []

/-- The stats count always equals the docstore size. -/
theorem get_collection_stats_count (vs : VectorStore) :
    vs.get_collection_stats.count = vs.docs.length := by
  rcases vs with ⟨docs⟩
  cases docs <;> simp [VectorStore.get_collection_stats]

/-- C4: with no generation service configured (`chain = none`,
i.e. `OPENAI_API_KEY` unset so no chain was built), `answer_question`
returns the fixed sentinel answer with an empty sources list, for every
generation and retrieval outcome; being a total function it cannot raise. -/
theorem answer_question_no_chain_sentinel (generation : Except String String)
    (retrieval : Except String (List Document)) :
    answer_question none generation retrieval
      = ⟨"QA system not fully initialized. Please check your API key configuration.", []⟩ :=
  rfl

/-- C5: any exception during the generation call, or during the citation
retrieval call, is converted into an answer string embedding the failure
reason, with an empty sources list; `answer_question` returns normally in
both cases (the generation error takes precedence, since retrieval is not
reached after it). -/
theorem answer_question_error_paths_safe (e : String) (ret : Except String (List Document)) :
    answer_question (some ()) (Except.error e) ret
        = ⟨"An error occurred: " ++ e, []⟩
    ∧ (∀ a : String, answer_question (some ()) (Except.ok a) (Except.error e)
        = ⟨"An error occurred: " ++ e, []⟩) :=
  ⟨rfl, fun _ => rfl⟩

/-- C6: when the relevance-filtered (compression) retrieval path throws,
`retrieve_documents` returns exactly the unfiltered base-path result: the
top `MAX_DOCUMENTS` documents of the ranking, with no threshold filter
applied. -/
theorem retrieve_documents_fallback_on_error (r : DocumentRetriever)
    (score : Document → Int) (threshold : Int) (e : String) (k : Option Nat) :
    r.retrieve_documents score threshold (Except.error e) k
      = (rankByScore score r.vector_store.docs).take MAX_DOCUMENTS :=
  rfl

/-- C8: inserting `m` documents into a store with prior count `n` yields
count `n + m`, for all `m ≥ 0`; in particular the count never decreases. -/
theorem add_documents_count_additive (vs : VectorStore) (documents : List Document) :
    (vs.add_documents documents).get_collection_stats.count
        = vs.get_collection_stats.count + documents.length
    ∧ vs.get_collection_stats.count
        ≤ (vs.add_documents documents).get_collection_stats.count := by
  have hcount : (vs.add_documents documents).get_collection_stats.count
      = vs.get_collection_stats.count + documents.length := by
    rw [get_collection_stats_count, get_collection_stats_count]
    rcases vs with ⟨docs⟩
    by_cases h : documents.length > 0
    · simp [VectorStore.add_documents, h]
    · have h0 : documents.length = 0 := Nat.eq_zero_of_not_pos h
      simp [VectorStore.add_documents, h0]
  exact ⟨hcount, by rw [hcount]; exact Nat.le_add_right _ _⟩

/-- C2 counterexample: on a freshly created index (no persisted index at
the configured location) the stats count is not `0` — the bootstrap seeds
the store with the placeholder document, so the count is `1`. -/
theorem fresh_store_count_ne_zero :
    (VectorStore.init none).get_collection_stats.count ≠ 0 := by decide

/-- C2 amended: on a freshly created index — and likewise after a failed
load — `get_collection_stats` returns count `1` (the synthetic placeholder
entry) and an empty `metadata_keys` list. -/
theorem fresh_store_stats_count_one (e : String) :
    (VectorStore.init none).get_collection_stats = ⟨1, []⟩
    ∧ (VectorStore.init (some (Except.error e))).get_collection_stats = ⟨1, []⟩ :=
  ⟨rfl, rfl⟩

/-- Store exhibiting that `get_collection_stats` samples only the first
docstore entry for metadata keys. -/
def c7Store : VectorStore :=
  ⟨[⟨"alpha", []⟩, ⟨"beta", [("source", "x.pdf")]⟩]⟩

/-- C7 counterexample: `"source"` is a metadata key observed on a persisted
entry of `c7Store`, yet it is missing from `get_collection_stats`'s
`metadata_keys`, which samples only the first entry. -/
theorem stats_metadata_keys_miss_later_entry :
    "source" ∈ observedMetadataKeys c7Store
    ∧ "source" ∉ c7Store.get_collection_stats.metadata_keys := by decide

/-- C7 amended: `metadata_keys` equals the metadata key list of the *first*
persisted entry (a sample), and is empty when the index is empty. -/
theorem stats_metadata_keys_from_first_entry (d : Document) (rest : List Document) :
    (VectorStore.mk (d :: rest)).get_collection_stats
        = ⟨rest.length + 1, d.metadata.map (fun p => p.1)⟩
    ∧ (VectorStore.mk []).get_collection_stats = ⟨0, []⟩ := by
  exact ⟨by simp [VectorStore.get_collection_stats], rfl⟩

/-- C10: with no persisted index (or a failed load), the store is seeded
with exactly one synthetic entry — text `"Placeholder"`, empty metadata —
which is counted by the stats and is returned by similarity search for any
scoring and any requested `k ≥ 1`: no operation excludes it. -/
theorem placeholder_seeded_counted_and_searchable (score : Document → Int)
    (k : Nat) (e : String) :
    (VectorStore.init none).docs = [placeholderDocument]
    ∧ (VectorStore.init (some (Except.error e))).docs = [placeholderDocument]
    ∧ placeholderDocument.page_content = "Placeholder"
    ∧ placeholderDocument.metadata = []
    ∧ (VectorStore.init none).get_collection_stats = ⟨1, []⟩
    ∧ placeholderDocument ∈ (VectorStore.init none).similarity_search score (k + 1) := by
  refine ⟨rfl, rfl, rfl, rfl, rfl, ?_⟩
  simp [VectorStore.init, VectorStore.similarity_search, rankByScore, insertByScore]

/-- A retriever over six stored documents, all equally similar to the
query, all passing the relevance threshold. -/
def c3Retriever : DocumentRetriever :=
  ⟨⟨[⟨"d1", []⟩, ⟨"d2", []⟩, ⟨"d3", []⟩, ⟨"d4", []⟩, ⟨"d5", []⟩, ⟨"d6", []⟩]⟩⟩

/-- C3: `retrieve_documents` ignores the requested `k` on the plain path —
asked for `k = 2` over six equally relevant documents it returns
`MAX_DOCUMENTS = 5` results, more than requested, contradicting its own
docstring (`k ... overrides config if provided`). -/
theorem retrieve_documents_ignores_requested_k :
    (c3Retriever.retrieve_documents (fun _ => 0) 0 (Except.ok ()) (some 2)).length = 5
    ∧ ¬ ((c3Retriever.retrieve_documents (fun _ => 0) 0 (Except.ok ()) (some 2)).length ≤ 2) := by
  decide

/-- C9 counterexample: when the generation service returns the empty
string, `answer_question` returns it unchanged, so `answer` is the empty
string — not a non-empty one as claimed. -/
theorem answer_question_empty_generation_empty_answer :
    (answer_question (some ()) (Except.ok "") (Except.ok [])).answer = "" :=
  rfl

/-- C9 amended: `sources` is always a well-typed (possibly empty) list and
`answer` is always a string, never an exception value; `answer` is
non-empty on the uninitialized and error paths, and on the success path it
is non-empty provided the generation service's output is non-empty. -/
theorem answer_question_answer_nonempty_of_generation_nonempty
    (chain : Option Unit) (generation : Except String String)
    (retrieval : Except String (List Document))
    (hgen : ∀ s, generation = Except.ok s → s ≠ "") :
    (answer_question chain generation retrieval).answer ≠ "" := by
  have happ : ∀ e : String, ("An error occurred: " ++ e) ≠ "" := by
    intro e h
    have h2 : ("An error occurred: " ++ e).data = "".data := congrArg String.data h
    simp [String.data_append] at h2
  cases chain with
  | none =>
    show ("QA system not fully initialized. Please check your API key configuration." : String) ≠ ""
    decide
  | some u =>
    cases generation with
    | error e => exact happ e
    | ok a =>
      cases retrieval with
      | error e => exact happ e
      | ok docs => exact hgen a rfl

/-- C9 amended, witness: a concrete run with non-empty generation output
has a non-empty answer. -/
theorem answer_question_answer_nonempty_witness :
    (answer_question (some ()) (Except.ok "hi") (Except.ok [])).answer ≠ "" :=
  answer_question_answer_nonempty_of_generation_nonempty (some ()) (Except.ok "hi")
    (Except.ok []) (fun s h => by injection h with h2; rw [← h2]; decide)

/-- Two documents with distinct `(source, title)` pairs whose dedup keys
`f"{source}_{title}"` coincide: `("a_b", "c")` and `("a", "b_c")` both
yield `"a_b_c"`. -/
def collisionDocA : Document := ⟨"First chunk text", [("source", "a_b"), ("title", "c")]⟩

/-- Second document of the colliding pair. -/
def collisionDocB : Document := ⟨"Second chunk text", [("source", "a"), ("title", "b_c")]⟩

/-- C1 counterexample: the two retrieved documents carry distinct
`(source, title)` pairs, yet `answer_question` returns a single citation —
the underscore-concatenated dedup key collides, so the claimed
one-entry-per-distinct-pair property fails. -/
theorem sources_merge_distinct_pairs_on_key_collision :
    sourceOf collisionDocA ≠ sourceOf collisionDocB
    ∧ (answer_question (some ()) (Except.ok "ans")
        (Except.ok [collisionDocA, collisionDocB])).sources.length = 1 := by
  decide

/-- The source-extraction loop, generalized over the already-seen key set:
it produces the citations of the first occurrence of each not-yet-seen
dedup key, in first-seen order. -/
theorem extractSources_eq_firstOccurrences (docs : List Document) : ∀ seen : List String,
    extractSources docs seen
      = (firstOccurrences (docs.filter (fun d2 => !(seen.contains (docKey d2))))).map citationOf := by
  induction docs with
  | nil => intro seen; simp [firstOccurrences, extractSources]
  | cons d rest ih =>
    intro seen
    cases h : seen.contains (docKey d) with
    | true =>
      simp only [extractSources, h, if_true, List.filter_cons, Bool.not_true,
        Bool.false_eq_true, if_false]
      exact ih seen
    | false =>
      simp only [extractSources, h, Bool.false_eq_true, if_false, List.filter_cons,
        Bool.not_false, if_true]
      rw [firstOccurrences]
      simp only [List.map_cons]
      congr 1
      rw [ih (docKey d :: seen)]
      congr 2
      rw [List.filter_filter]
      apply List.filter_congr
      intro a _
      simp [List.contains_cons, Bool.not_or, Bool.and_comm]

/-- Every document kept by `firstOccurrences` comes from the input list. -/
theorem mem_of_mem_firstOccurrences (l : List Document) (d : Document) :
    d ∈ firstOccurrences l → d ∈ l := by
  induction l using firstOccurrences.induct with
  | case1 => simp [firstOccurrences]
  | case2 d' rest ih =>
    rw [firstOccurrences]
    intro h
    rcases List.mem_cons.mp h with h1 | h2
    · exact h1 ▸ List.mem_cons_self _ _
    · exact List.mem_cons_of_mem _ (List.mem_of_mem_filter (ih h2))

/-- The dedup keys of the documents kept by `firstOccurrences` are pairwise
distinct: exactly one document per distinct key. -/
theorem nodup_keys_firstOccurrences (l : List Document) :
    ((firstOccurrences l).map docKey).Nodup := by
  induction l using firstOccurrences.induct with
  | case1 => simp [firstOccurrences]
  | case2 d rest ih =>
    rw [firstOccurrences]
    simp only [List.map_cons, List.nodup_cons]
    refine ⟨?_, ih⟩
    intro hmem
    rcases List.mem_map.mp hmem with ⟨d2, hd2, hkey⟩
    have h1 := mem_of_mem_firstOccurrences _ _ hd2
    have h2 := List.of_mem_filter h1
    simp only [Bool.not_eq_true', decide_eq_false_iff_not] at h2
    exact h2 hkey

/-- C1 amended: on the success path, the `sources` list of
`answer_question` is exactly the citation of the first retrieved document
of each distinct dedup key `f"{source}_{title}"`, in first-seen retrieval
order — so each citation's snippet is taken from the first-encountered
document of its key, and the keys of the citation list are pairwise
distinct (one entry per distinct concatenated key, though not per distinct
`(source, title)` pair, which the collision counterexample refutes). -/
theorem sources_eq_firstOccurrences_citations (ans : String) (docs : List Document) :
    (answer_question (some ()) (Except.ok ans) (Except.ok docs)).sources
        = (firstOccurrences docs).map citationOf
    ∧ ((firstOccurrences docs).map docKey).Nodup := by
  constructor
  · show extractSources docs [] = _
    rw [extractSources_eq_firstOccurrences docs []]
    simp
  · exact nodup_keys_firstOccurrences docs
